import Mathlib

/-!
Verification of the progressive tax computation of the
property-management-system repository (`src/dashboard/tax.py`).

Shallow embedding conventions:
* Python floats are modelled as exact rationals (`ℚ`); the arithmetic of
  the tax computation (sums, `min`/`max`, multiplication by the fixed
  rates, one division) is carried out exactly.
* Nullable foreign keys (`rental_agreement`, `property`, `unit`,
  `building.landlord`, ...) are `Option` fields; Python truthiness of an
  object reference coincides with `Option.isSome`.
* The database of persisted payments is an explicit `List Payment`
  argument; the Django queryset filter of `_ytd_base_rent_before`
  becomes a `List.filter`, and the `Sum` aggregate a fold.
* `float(getattr(p, "base_rent", 0.0) or 0.0)` can raise `ValueError`
  when `base_rent` holds a truthy non-numeric value, so the payment's
  `base_rent` attribute is a `PyVal` and the conversion returns
  `Except Unit ℚ`; `compute_tax_for_payment` is likewise `Except`-valued.
-/

namespace PMS

/-- A calendar date, ordered lexicographically by (year, month, day),
matching Python `datetime.date` comparison and the SQL semantics of
`date_due__lt` / `date_due__year`. -/
structure PyDate where
  year : Int
  month : Nat
  day : Nat
  deriving DecidableEq, Repr

/-- Python `date` strict comparison `d1 < d2` (lexicographic). -/
def PyDate.lt (d1 d2 : PyDate) : Bool :=
  d1.year < d2.year ||
  (d1.year == d2.year && (d1.month < d2.month ||
    (d1.month == d2.month && d1.day < d2.day)))

/-- Model of `users.Landlord`: identified by primary key, with the
`tax_residency_country` CharField (`None` models an unset value). -/
structure Landlord where
  pk : Nat
  tax_residency_country : Option String
  deriving DecidableEq, Repr

/-- Model of `properties.Building` with its nullable landlord FK. -/
structure Building where
  landlord : Option Landlord
  deriving DecidableEq, Repr

/-- Model of `properties.Unit` with its nullable building FK. -/
structure PUnit where
  building : Option Building
  deriving DecidableEq, Repr

/-- Model of `properties.Property` with its nullable landlord FK. -/
structure PProperty where
  landlord : Option Landlord
  deriving DecidableEq, Repr

/-- Model of `leases.RentalAgreement`: nullable `property` and `unit` FKs (the two
paths used by the landlord resolution). -/
structure RentalAgreement where
  property : Option PProperty
  unit : Option PUnit
  deriving DecidableEq, Repr

/-- A Python attribute value as seen by
`float(getattr(p, "base_rent", 0.0) or 0.0)`:
`none` is Python `None` (falsy, replaced by `0.0`), `num q` a numeric
value, and `other truthy` any non-numeric value, carrying only its
truthiness (a falsy one, such as `""`, is replaced by `0.0` before
`float` is applied; a truthy one makes `float` raise). -/
inductive PyVal where
  | none
  | num (q : ℚ)
  | other (truthy : Bool)
  deriving DecidableEq, Repr

/-- Semantics of `float(x or 0.0)` for `x : PyVal`: numeric values convert exactly
(a falsy `0` becomes `0.0` via `or`, the same rational), `None` and
falsy non-numeric values become `0.0`, and a truthy non-numeric value
raises (`ValueError`), modelled as `Except.error`. -/
def PyVal.toFloat : PyVal → Except Unit ℚ
  | .none => .ok 0
  | .num q => .ok q
  | .other truthy => if truthy then .error () else .ok 0

/-- Model of `dashboard.Payment`: the fields consulted by the tax module.
`pk` is `none` for a not-yet-persisted instance. -/
structure Payment where
  pk : Option Nat
  rental_agreement : Option RentalAgreement
  date_due : Option PyDate
  base_rent : PyVal
  deriving DecidableEq, Repr

/-- Constant `LOW_RATE = 0.085` of `tax.py`. -/
def LOW_RATE : ℚ := 85 / 1000

/-- Constant `HIGH_RATE = 0.125` of `tax.py`. -/
def HIGH_RATE : ℚ := 125 / 1000

/-- Constant `THRESHOLD_PLN = 100_000.0` of `tax.py`. -/
def THRESHOLD_PLN : ℚ := 100000

/-- Constant `POLAND_CODE = "PL"` of `tax.py`. -/
def POLAND_CODE : String := "PL"

/-- Embedding of `_get_landlord_from_payment`: resolve the landlord via the rental
agreement's property first, then via unit -> building; `None` when
neither path yields one. -/
def _get_landlord_from_payment (p : Payment) : Option Landlord :=
  match p.rental_agreement with
  | Option.none => Option.none
  | some ra =>
    match ra.property.bind (·.landlord) with
    | some landlord => some landlord
    | Option.none =>
      match ra.unit with
      | Option.none => Option.none
      | some unit =>
        match unit.building with
        | Option.none => Option.none
        | some building => building.landlord

/-- Python `str.upper()`, character by character (ASCII case mapping,
which is all a two-letter country code needs); kernel-reducible, unlike
`String.toUpper`. -/
def pyUpper (s : String) : String :=
  ⟨s.data.map Char.toUpper⟩

/-- Embedding of `_is_polish_resident`: `(landlord.tax_residency_country or "").upper()
== POLAND_CODE` (the `try/except` cannot fire in the typed model). -/
def _is_polish_resident (landlord : Landlord) : Bool :=
  pyUpper (landlord.tax_residency_country.getD "") == POLAND_CODE

/-- The ORM filter
`Q(rental_agreement__property__landlord=landlord) |
 Q(rental_agreement__unit__building__landlord=landlord)`:
a row matches when either join chain reaches this landlord's pk. -/
def matchesLandlord (row : Payment) (landlord : Landlord) : Bool :=
  ((row.rental_agreement.bind (·.property)).bind (·.landlord)).any
      (·.pk == landlord.pk) ||
  (((row.rental_agreement.bind (·.unit)).bind (·.building)).bind
      (·.landlord)).any (·.pk == landlord.pk)

/-- The row predicate of the queryset in `_ytd_base_rent_before`:
landlord match, `date_due__year=due.year`, `date_due__lt=due` (a SQL
NULL `date_due` never matches). -/
def ytdRowMatch (row : Payment) (landlord : Landlord) (due : PyDate) :
    Bool :=
  matchesLandlord row landlord &&
  row.date_due.any (fun d => d.year == due.year && PyDate.lt d due)

/-- The `Sum("base_rent")` aggregate followed by `float(agg or 0.0)`:
NULL (non-numeric) `base_rent` columns contribute nothing, and an empty
or all-NULL set yields `0.0`. -/
def sumBaseRent (rows : List Payment) : ℚ :=
  rows.foldr (fun r acc => (match r.base_rent with
    | .num q => q
    | _ => 0) + acc) 0

/-- Embedding of `_ytd_base_rent_before`: sum of `base_rent` over the landlord's
payments of the same calendar year with strictly earlier `date_due`,
excluding the payment's own persisted row (`if getattr(p, "pk", None)`:
the exclusion runs only when `pk` is truthy, i.e. a nonzero number). -/
def _ytd_base_rent_before (p : Payment) (db : List Payment) : ℚ :=
  match _get_landlord_from_payment p with
  | Option.none => 0
  | some landlord =>
    match p.date_due with
    | Option.none => 0
    | some due =>
      let qs := db.filter (fun r => ytdRowMatch r landlord due)
      let qs :=
        match p.pk with
        | some k => if k ≠ 0 then qs.filter (fun r => r.pk ≠ some k) else qs
        | Option.none => qs
      sumBaseRent qs

/-- Embedding of `compute_tax_for_payment`: `(effective_rate, tax_amount)` for a
payment against the database `db` of persisted payments, or an error
when the `float` conversion of `base_rent` raises. -/
def compute_tax_for_payment (p : Payment) (db : List Payment) :
    Except Unit (ℚ × ℚ) :=
  match _get_landlord_from_payment p with
  | Option.none => .ok (0, 0)
  | some landlord =>
    if !_is_polish_resident landlord then .ok (0, 0)
    else
      match p.base_rent.toFloat with
      | .error e => .error e
      | .ok base =>
        if base ≤ 0 then .ok (0, 0)
        else
          let ytd_before := _ytd_base_rent_before p db
          let remaining_low_band := max 0 (THRESHOLD_PLN - ytd_before)
          let taxed_at_low := min base remaining_low_band
          let taxed_at_high := max 0 (base - taxed_at_low)
          let tax_amount := taxed_at_low * LOW_RATE +
            taxed_at_high * HIGH_RATE
          let effective_rate := if base ≠ 0 then tax_amount / base else 0
          .ok (effective_rate, tax_amount)

/-! ### Concrete fixtures used by witnesses and counterexamples -/

/-- A Polish-resident landlord. -/
def plLandlord : Landlord := ⟨1, some "PL"⟩

/-- A German-resident landlord. -/
def deLandlord : Landlord := ⟨2, some "DE"⟩

/-- A rental agreement whose property belongs to the given landlord
(no unit). -/
def mkRA (l : Landlord) : RentalAgreement :=
  ⟨some ⟨some l⟩, Option.none⟩

/-- A payment of the given landlord via the property path. -/
def mkPayment (l : Landlord) (pk : Option Nat) (d : Option PyDate)
    (b : PyVal) : Payment :=
  ⟨pk, some (mkRA l), d, b⟩

/-- Persisted row: 95000 due 2024-01-01 for the Polish landlord. -/
def priorRow : Payment :=
  mkPayment plLandlord (some 1) (some ⟨2024, 1, 1⟩) (.num 95000)

/-- New payment: 10000 due 2024-02-01 for the Polish landlord. -/
def newP : Payment :=
  mkPayment plLandlord Option.none (some ⟨2024, 2, 1⟩) (.num 10000)

/-- Payment with no due date for the Polish landlord. -/
def noDateP : Payment :=
  mkPayment plLandlord Option.none Option.none (.num 1000)

/-- Payment whose `base_rent` is a truthy non-numeric value. -/
def badBaseP : Payment :=
  mkPayment plLandlord Option.none (some ⟨2024, 1, 1⟩) (.other true)

end PMS

/-! ### Claims -/

namespace PMS

/-- C1: for a payment of a PL-resident landlord with same-year prior sum
`ytd_before = 95000` and `base_rent = 10000`, `compute_tax_for_payment`
splits the base across the brackets as `taxed_at_low = min(base,
max(0, 100000 - ytd_before)) = 5000` and `taxed_at_high = base -
taxed_at_low = 5000`, returning `tax_amount = 5000*0.085 + 5000*0.125 =
1050` and `effective_rate = 1050/10000 = 0.105 = 21/200`, with constants
`LOW_RATE = 0.085`, `HIGH_RATE = 0.125`, `THRESHOLD = 100000`. -/
theorem c1_threshold_crossing_split (p : Payment) (db : List Payment)
    (l : Landlord)
    (hl : _get_landlord_from_payment p = some l)
    (hpl : _is_polish_resident l = true)
    (hbase : p.base_rent = PyVal.num 10000)
    (hytd : _ytd_base_rent_before p db = 95000) :
    compute_tax_for_payment p db = .ok (21 / 200, 1050) ∧
    min (10000 : ℚ) (max 0 (THRESHOLD_PLN - 95000)) = 5000 ∧
    max (0 : ℚ) (10000 - 5000) = 5000 ∧
    (5000 : ℚ) * LOW_RATE + 5000 * HIGH_RATE = 1050 ∧
    (1050 : ℚ) / 10000 = 21 / 200 ∧
    LOW_RATE = 85 / 1000 ∧ HIGH_RATE = 125 / 1000 ∧
    THRESHOLD_PLN = 100000 := by
  refine ⟨?_, by norm_num [THRESHOLD_PLN], by norm_num,
    by norm_num [LOW_RATE, HIGH_RATE], by norm_num,
    by norm_num [LOW_RATE], by norm_num [HIGH_RATE],
    by norm_num [THRESHOLD_PLN]⟩
  simp [compute_tax_for_payment, hl, hpl, hbase, hytd, PyVal.toFloat,
    LOW_RATE, HIGH_RATE, THRESHOLD_PLN]
  norm_num

/-- Witness for C1 at the concrete P4 scenario: one persisted prior
payment of 95000 due 2024-01-01, a new payment of 10000 due
2024-02-01. -/
theorem c1_threshold_crossing_split_witness :
    compute_tax_for_payment newP [priorRow] = .ok (21 / 200, 1050) ∧
    min (10000 : ℚ) (max 0 (THRESHOLD_PLN - 95000)) = 5000 ∧
    max (0 : ℚ) (10000 - 5000) = 5000 ∧
    (5000 : ℚ) * LOW_RATE + 5000 * HIGH_RATE = 1050 ∧
    (1050 : ℚ) / 10000 = 21 / 200 ∧
    LOW_RATE = 85 / 1000 ∧ HIGH_RATE = 125 / 1000 ∧
    THRESHOLD_PLN = 100000 :=
  c1_threshold_crossing_split newP [priorRow] plLandlord rfl (by decide)
    rfl (by
      simp [_ytd_base_rent_before, _get_landlord_from_payment,
        ytdRowMatch, matchesLandlord, PyDate.lt, sumBaseRent,
        newP, priorRow, mkPayment, mkRA, plLandlord])

/-- C2: whenever the resolved landlord's `tax_residency_country`,
upper-cased (with `None` read as `""`), differs from `"PL"`,
`compute_tax_for_payment` returns `(0.0, 0.0)` regardless of
`base_rent`, `date_due` or the stored payments. -/
theorem c2_non_pl_landlord_zero (p : Payment) (db : List Payment)
    (l : Landlord)
    (hl : _get_landlord_from_payment p = some l)
    (hnp : pyUpper (l.tax_residency_country.getD "") ≠ POLAND_CODE) :
    compute_tax_for_payment p db = .ok (0, 0) := by
  have hres : _is_polish_resident l = false := by
    simp [_is_polish_resident]
    exact hnp
  simp [compute_tax_for_payment, hl, hres]

/-- Witness for C2: a German-resident landlord with a positive base. -/
theorem c2_non_pl_landlord_zero_witness :
    compute_tax_for_payment
      (mkPayment deLandlord Option.none (some ⟨2024, 1, 1⟩) (.num 1000))
      [] = .ok (0, 0) :=
  c2_non_pl_landlord_zero _ _ deLandlord rfl (by decide)

end PMS

namespace PMS

/-- C3 counterexample: a payment whose `base_rent` holds a truthy
non-numeric value (e.g. the string `"abc"`) makes
`float(getattr(p, "base_rent", 0.0) or 0.0)` raise `ValueError`, so
`compute_tax_for_payment` does not return `(0.0, 0.0)` — it propagates
the error, refuting the claim that it never raises. -/
theorem c3_nonnumeric_base_raises :
    compute_tax_for_payment badBaseP [] = .error () ∧
    compute_tax_for_payment badBaseP [] ≠ .ok (0, 0) := by
  constructor
  · simp [compute_tax_for_payment, _get_landlord_from_payment,
      _is_polish_resident, pyUpper, PyVal.toFloat, POLAND_CODE,
      badBaseP, mkPayment, mkRA, plLandlord]
  · simp [compute_tax_for_payment, _get_landlord_from_payment,
      _is_polish_resident, pyUpper, PyVal.toFloat, POLAND_CODE,
      badBaseP, mkPayment, mkRA, plLandlord]

/-- C3 (amended): `compute_tax_for_payment` terminates normally for
every payment whose `base_rent` is not a truthy non-numeric value, and
each listed failure mode — unresolvable landlord, missing
`tax_residency_country`, missing (`None`) `base_rent` — yields exactly
`(0.0, 0.0)`. -/
theorem c3_degrades_to_zero (p : Payment) (db : List Payment)
    (hb : p.base_rent ≠ PyVal.other true) :
    (∃ out, compute_tax_for_payment p db = .ok out) ∧
    (_get_landlord_from_payment p = Option.none →
      compute_tax_for_payment p db = .ok (0, 0)) ∧
    (∀ l, _get_landlord_from_payment p = some l →
      l.tax_residency_country = Option.none →
      compute_tax_for_payment p db = .ok (0, 0)) ∧
    (p.base_rent = PyVal.none →
      compute_tax_for_payment p db = .ok (0, 0)) := by
  have htf : ∃ q, p.base_rent.toFloat = Except.ok q := by
    rcases hbr : p.base_rent with _ | q | t
    · exact ⟨0, rfl⟩
    · exact ⟨q, rfl⟩
    · cases t
      · exact ⟨0, rfl⟩
      · exact absurd hbr hb
  obtain ⟨q, hq⟩ := htf
  refine ⟨?_, ?_, ?_, ?_⟩
  · simp only [compute_tax_for_payment, hq]
    repeat' split
    all_goals exact ⟨_, rfl⟩
  · intro hg
    simp [compute_tax_for_payment, hg]
  · intro l hgl hcountry
    have hres : _is_polish_resident l = false := by
      rw [_is_polish_resident, hcountry]
      decide
    simp [compute_tax_for_payment, hgl, hres]
  · intro hbase
    simp only [compute_tax_for_payment, hbase, PyVal.toFloat]
    repeat' split
    all_goals simp_all

/-- Witness for the amended C3: a payment with no rental agreement and
`None` base rent computes to `(0.0, 0.0)` without raising. -/
theorem c3_degrades_to_zero_witness :
    ∃ out, compute_tax_for_payment
      ⟨Option.none, Option.none, Option.none, PyVal.none⟩ [] =
        .ok out :=
  (c3_degrades_to_zero
    ⟨Option.none, Option.none, Option.none, PyVal.none⟩ [] (by decide)).1

/-- C4 counterexample: a PL-resident landlord's payment with
`date_due = None` and `base_rent = 1000` computes to
`(0.085, 85.0)`, not `(0.0, 0.0)`: the missing due date only zeroes the
year-to-date aggregate, it does not zero the tax. -/
theorem c4_none_date_due_taxes :
    compute_tax_for_payment noDateP [] = .ok (17 / 200, 85) ∧
    compute_tax_for_payment noDateP [] ≠ .ok (0, 0) := by
  have h : compute_tax_for_payment noDateP [] = .ok (17 / 200, 85) := by
    simp [compute_tax_for_payment, _ytd_base_rent_before,
      _get_landlord_from_payment, _is_polish_resident, pyUpper,
      matchesLandlord, ytdRowMatch, sumBaseRent, PyVal.toFloat,
      LOW_RATE, HIGH_RATE, THRESHOLD_PLN, POLAND_CODE, PyDate.lt,
      noDateP, mkPayment, mkRA, plLandlord]
    norm_num
  refine ⟨h, ?_⟩
  rw [h]
  intro hcon
  rw [Except.ok.injEq, Prod.mk.injEq] at hcon
  norm_num at hcon

/-- C4 (amended): when `date_due` is `None`, `_ytd_base_rent_before`
returns `0.0`, so `compute_tax_for_payment` behaves exactly as if the
database held no prior payments — a PL-resident landlord with positive
base still receives the normal bracket result, not `(0.0, 0.0)`. -/
theorem c4_none_date_due_ytd_zero (p : Payment) (db : List Payment)
    (hd : p.date_due = Option.none) :
    _ytd_base_rent_before p db = 0 ∧
    compute_tax_for_payment p db = compute_tax_for_payment p [] := by
  have hy : ∀ db' : List Payment, _ytd_base_rent_before p db' = 0 := by
    intro db'
    simp only [_ytd_base_rent_before]
    cases hg : _get_landlord_from_payment p <;> simp [hg, hd]
  refine ⟨hy db, ?_⟩
  simp only [compute_tax_for_payment, hy]

/-- Witness for the amended C4 at the concrete no-due-date payment. -/
theorem c4_none_date_due_ytd_zero_witness :
    _ytd_base_rent_before noDateP [priorRow] = 0 ∧
    compute_tax_for_payment noDateP [priorRow] =
      compute_tax_for_payment noDateP [] :=
  c4_none_date_due_ytd_zero noDateP [priorRow] rfl

/-- C8: for a PL-resident landlord's payment whose `base_rent` is
absent (`None`) or a non-positive number, `compute_tax_for_payment`
returns `(0.0, 0.0)`: only a strictly positive taxable base is taxed. -/
theorem c8_nonpositive_base_zero (p : Payment) (db : List Payment)
    (l : Landlord)
    (hl : _get_landlord_from_payment p = some l)
    (hpl : _is_polish_resident l = true)
    (hb : p.base_rent = PyVal.none ∨
      ∃ q : ℚ, q ≤ 0 ∧ p.base_rent = PyVal.num q) :
    compute_tax_for_payment p db = .ok (0, 0) := by
  rcases hb with hb | ⟨q, hq, hb⟩
  · simp [compute_tax_for_payment, hl, hpl, hb, PyVal.toFloat]
  · simp [compute_tax_for_payment, hl, hpl, hb, PyVal.toFloat, hq]

/-- Witness for C8: a PL landlord's payment with `base_rent = -5`. -/
theorem c8_nonpositive_base_zero_witness :
    compute_tax_for_payment
      (mkPayment plLandlord Option.none (some ⟨2024, 1, 1⟩)
        (.num (-5))) [] = .ok (0, 0) :=
  c8_nonpositive_base_zero _ [] plLandlord rfl (by decide)
    (Or.inr ⟨-5, by norm_num, rfl⟩)

end PMS

namespace PMS

/-- Landlord resolution never reads `pk`: two payments differing only in
`pk` resolve identically. -/
lemma get_landlord_ignores_pk (pk1 pk2 : Option Nat)
    (ra : Option RentalAgreement) (d : Option PyDate) (b : PyVal) :
    _get_landlord_from_payment ⟨pk1, ra, d, b⟩ =
    _get_landlord_from_payment ⟨pk2, ra, d, b⟩ := rfl

/-- The self-exclusion of `_ytd_base_rent_before`: recomputing with a
persisted pk over a database equals a fresh computation over the
database with that row removed. -/
lemma ytd_excludes_own_row (k : Nat) (ra : Option RentalAgreement)
    (d : Option PyDate) (b : PyVal) (db : List Payment) (hk : k ≠ 0) :
    _ytd_base_rent_before ⟨some k, ra, d, b⟩ db =
    _ytd_base_rent_before ⟨Option.none, ra, d, b⟩
      (db.filter (fun r => r.pk ≠ some k)) := by
  simp only [_ytd_base_rent_before]
  have hgl : _get_landlord_from_payment ⟨Option.none, ra, d, b⟩ =
      _get_landlord_from_payment ⟨some k, ra, d, b⟩ := rfl
  rw [hgl]
  cases hg : _get_landlord_from_payment ⟨some k, ra, d, b⟩ with
  | none => rfl
  | some l =>
    cases d with
    | none => rfl
    | some due =>
      simp only [ne_eq, hk, not_false_eq_true, ite_true]
      exact congrArg sumBaseRent (List.filter_comm _ _ _)

/-- C5: recomputation is idempotent. For a persisted payment (nonzero
pk `k`), `compute_tax_for_payment` over the full database equals the
original computation (pk absent) over the database without the
payment's own row: the result depends only on landlord, year, prior
payments excluding self, and `base_rent`. -/
theorem c5_recompute_idempotent (k : Nat) (ra : Option RentalAgreement)
    (d : Option PyDate) (b : PyVal) (db : List Payment) (hk : k ≠ 0) :
    compute_tax_for_payment ⟨some k, ra, d, b⟩ db =
    compute_tax_for_payment ⟨Option.none, ra, d, b⟩
      (db.filter (fun r => r.pk ≠ some k)) := by
  simp only [compute_tax_for_payment,
    get_landlord_ignores_pk (some k) Option.none ra d b,
    ytd_excludes_own_row k ra d b db hk]

/-- Witness for C5: the P4 payment, persisted as pk 2, recomputed over
a database holding its own row and its sibling. -/
theorem c5_recompute_idempotent_witness :
    compute_tax_for_payment
      ⟨some 2, some (mkRA plLandlord), some ⟨2024, 2, 1⟩,
        PyVal.num 10000⟩
      [priorRow,
        ⟨some 2, some (mkRA plLandlord), some ⟨2024, 2, 1⟩,
          PyVal.num 10000⟩] =
    compute_tax_for_payment
      ⟨Option.none, some (mkRA plLandlord), some ⟨2024, 2, 1⟩,
        PyVal.num 10000⟩
      ([priorRow,
        ⟨some 2, some (mkRA plLandlord), some ⟨2024, 2, 1⟩,
          PyVal.num 10000⟩].filter (fun r => r.pk ≠ some 2)) :=
  c5_recompute_idempotent 2 (some (mkRA plLandlord))
    (some ⟨2024, 2, 1⟩) (PyVal.num 10000) _ (by decide)

/-- C6: year isolation. A stored payment whose `date_due` lies in a
different calendar year than the target's contributes nothing to the
target's `ytd_before`, even when chronologically earlier. -/
theorem c6_year_isolation (p q : Payment) (db : List Payment)
    (dp dq : PyDate) (hp : p.date_due = some dp)
    (hq : q.date_due = some dq) (hyear : dq.year ≠ dp.year) :
    _ytd_base_rent_before p (q :: db) = _ytd_base_rent_before p db := by
  simp only [_ytd_base_rent_before]
  cases hg : _get_landlord_from_payment p with
  | none => rfl
  | some l =>
    have hrow : ytdRowMatch q l dp = false := by
      simp [ytdRowMatch, hq, hyear]
    simp only [hp, List.filter_cons, hrow, Bool.false_eq_true, if_false]

/-- Witness for C6: a December 2023 payment of 500 precedes a February
2024 payment chronologically but adds nothing to its `ytd_before`. -/
theorem c6_year_isolation_witness :
    _ytd_base_rent_before newP
      [mkPayment plLandlord (some 7) (some ⟨2023, 12, 1⟩) (.num 500)] =
    _ytd_base_rent_before newP [] :=
  c6_year_isolation newP
    (mkPayment plLandlord (some 7) (some ⟨2023, 12, 1⟩) (.num 500)) []
    ⟨2024, 2, 1⟩ ⟨2023, 12, 1⟩ rfl rfl (by decide)

/-- Strict date comparison is irreflexive. -/
lemma PyDate.lt_self (d : PyDate) : PyDate.lt d d = false := by
  simp [PyDate.lt]

/-- C7: same-day exclusion. The queryset keeps only rows with
`date_due` strictly earlier than the target's, so two payments sharing
one `date_due` count in neither one's `ytd_before`. -/
theorem c7_same_day_exclusion (p q : Payment) (db : List Payment)
    (d : PyDate) (hp : p.date_due = some d) (hq : q.date_due = some d) :
    _ytd_base_rent_before p (q :: db) = _ytd_base_rent_before p db ∧
    _ytd_base_rent_before q (p :: db) = _ytd_base_rent_before q db := by
  constructor
  · simp only [_ytd_base_rent_before]
    cases hg : _get_landlord_from_payment p with
    | none => rfl
    | some l =>
      have hrow : ytdRowMatch q l d = false := by
        simp [ytdRowMatch, hq, PyDate.lt_self]
      simp only [hp, List.filter_cons, hrow, Bool.false_eq_true, if_false]
  · simp only [_ytd_base_rent_before]
    cases hg : _get_landlord_from_payment q with
    | none => rfl
    | some l =>
      have hrow : ytdRowMatch p l d = false := by
        simp [ytdRowMatch, hp, PyDate.lt_self]
      simp only [hq, List.filter_cons, hrow, Bool.false_eq_true, if_false]

/-- Witness for C7: two 2024-03-01 payments of the Polish landlord. -/
theorem c7_same_day_exclusion_witness :
    _ytd_base_rent_before
        (mkPayment plLandlord (some 3) (some ⟨2024, 3, 1⟩) (.num 1000))
        [mkPayment plLandlord (some 4) (some ⟨2024, 3, 1⟩) (.num 2000)] =
      _ytd_base_rent_before
        (mkPayment plLandlord (some 3) (some ⟨2024, 3, 1⟩) (.num 1000))
        [] ∧
    _ytd_base_rent_before
        (mkPayment plLandlord (some 4) (some ⟨2024, 3, 1⟩) (.num 2000))
        [mkPayment plLandlord (some 3) (some ⟨2024, 3, 1⟩)
          (.num 1000)] =
      _ytd_base_rent_before
        (mkPayment plLandlord (some 4) (some ⟨2024, 3, 1⟩) (.num 2000))
        [] :=
  c7_same_day_exclusion
    (mkPayment plLandlord (some 3) (some ⟨2024, 3, 1⟩) (.num 1000))
    (mkPayment plLandlord (some 4) (some ⟨2024, 3, 1⟩) (.num 2000))
    [] ⟨2024, 3, 1⟩ rfl rfl

end PMS

namespace PMS

/-- C9: on the taxed path (resolved PL-resident landlord, strictly
positive base), the returned pair satisfies
`tax_amount = effective_rate * base_rent` and
`LOW_RATE ≤ effective_rate ≤ HIGH_RATE`, for every year-to-date sum,
because the two bracket parts are non-negative and add up to the
base. -/
theorem c9_effective_rate_bounds (p : Payment) (db : List Payment)
    (l : Landlord) (base : ℚ)
    (hl : _get_landlord_from_payment p = some l)
    (hpl : _is_polish_resident l = true)
    (hb : p.base_rent.toFloat = .ok base)
    (hpos : 0 < base) :
    ∃ rate amount, compute_tax_for_payment p db = .ok (rate, amount) ∧
      amount = rate * base ∧ LOW_RATE ≤ rate ∧ rate ≤ HIGH_RATE := by
  have hnle : ¬ base ≤ 0 := not_le.mpr hpos
  have hne : base ≠ 0 := ne_of_gt hpos
  set ytd := _ytd_base_rent_before p db with hytd
  set low := min base (max 0 (THRESHOLD_PLN - ytd)) with hlowdef
  set high := max 0 (base - low) with hhighdef
  have hcomp : compute_tax_for_payment p db =
      .ok ((low * LOW_RATE + high * HIGH_RATE) / base,
        low * LOW_RATE + high * HIGH_RATE) := by
    simp only [compute_tax_for_payment, hl, hpl, Bool.not_true,
      Bool.false_eq_true, if_false, hb, hnle, ne_eq, hne,
      not_false_eq_true, ite_true, ← hytd, ← hlowdef, ← hhighdef]
  have hlow0 : 0 ≤ low := le_min hpos.le (le_max_left 0 _)
  have hlowb : low ≤ base := min_le_left _ _
  have hhigh : high = base - low :=
    max_eq_right (sub_nonneg.mpr hlowb)
  refine ⟨(low * LOW_RATE + high * HIGH_RATE) / base,
    low * LOW_RATE + high * HIGH_RATE, hcomp,
    (div_mul_cancel₀ _ hne).symm, ?_, ?_⟩
  · rw [le_div_iff₀ hpos]
    rw [hhigh]
    norm_num [LOW_RATE, HIGH_RATE]
    nlinarith
  · rw [div_le_iff₀ hpos]
    rw [hhigh]
    norm_num [LOW_RATE, HIGH_RATE]
    nlinarith

/-- Witness for C9 at the P4 scenario. -/
theorem c9_effective_rate_bounds_witness :
    ∃ rate amount,
      compute_tax_for_payment newP [priorRow] = .ok (rate, amount) ∧
      amount = rate * 10000 ∧ LOW_RATE ≤ rate ∧ rate ≤ HIGH_RATE :=
  c9_effective_rate_bounds newP [priorRow] plLandlord 10000 rfl
    (by decide) rfl (by norm_num)

/-- C10: landlord-resolution precedence. When the rental agreement's
unit -> building path names a landlord, the property path still wins
whenever it names one; the unit path's landlord is returned only when
the property path yields none. -/
theorem c10_property_path_precedence (p : Payment)
    (ra : RentalAgreement) (lb : Landlord)
    (hra : p.rental_agreement = some ra)
    (hub : (ra.unit.bind (·.building)).bind (·.landlord) = some lb) :
    (∀ prop lp, ra.property = some prop → prop.landlord = some lp →
      _get_landlord_from_payment p = some lp) ∧
    (ra.property.bind (·.landlord) = Option.none →
      _get_landlord_from_payment p = some lb) := by
  constructor
  · intro prop lp hprop hlp
    simp [_get_landlord_from_payment, hra, hprop, hlp]
  · intro hnone
    cases hu : ra.unit with
    | none =>
      rw [hu] at hub
      simp at hub
    | some u =>
      rw [hu] at hub
      have hub' : u.building.bind (fun x => x.landlord) = some lb := hub
      cases hbld : u.building with
      | none =>
        rw [hbld] at hub'
        simp at hub'
      | some bld =>
        rw [hbld] at hub'
        have hlb : bld.landlord = some lb := by simpa using hub'
        simp [_get_landlord_from_payment, hra, hnone, hu, hbld, hlb]

/-- Witness for C10: a rental agreement whose property belongs to the
Polish landlord and whose unit's building belongs to the German one;
resolution returns the property's landlord. -/
theorem c10_property_path_precedence_witness :
    _get_landlord_from_payment
      ⟨Option.none,
        some ⟨some ⟨some plLandlord⟩, some ⟨some ⟨some deLandlord⟩⟩⟩,
        Option.none, PyVal.none⟩ = some plLandlord :=
  (c10_property_path_precedence
      ⟨Option.none,
        some ⟨some ⟨some plLandlord⟩, some ⟨some ⟨some deLandlord⟩⟩⟩,
        Option.none, PyVal.none⟩
      ⟨some ⟨some plLandlord⟩, some ⟨some ⟨some deLandlord⟩⟩⟩
      deLandlord rfl rfl).1 ⟨some plLandlord⟩ plLandlord rfl rfl

end PMS
